import Mathlib

/-!
Shallow embedding of `src/backend/model/predict.py` (class `WastePredictor`):
the category taxonomy, the image preprocessor, and the predictor with its
Loaded/Fallback behaviour.  External library calls (PIL's `Image.open` /
`resize`, numpy's RNG, keras `model.predict`) enter as parameters or as
pre-drawn values; their documented contracts appear as hypotheses of the
theorems.  Machine floats are modelled as rationals; Python's `round(x, 1)`
(banker's rounding to one decimal) is modelled exactly on rationals.
-/

namespace TrashTalk

/-- Exceptions that the Python code in `predict.py` can raise or propagate:
`UnidentifiedImageError`/`FileNotFoundError` out of `PIL.Image.open`,
`ValueError` out of `np.argmax` on an empty vector, `KeyError` out of the
`WASTE_CATEGORIES[category_id]` dict lookup. -/
inductive PyError where
  | unidentifiedImage : PyError
  | fileNotFound : PyError
  | valueError : PyError
  | keyError : PyError
deriving DecidableEq, Repr

/-- One value of the `WASTE_CATEGORIES` dict in `predict.py` (lines 34-84):
name, type, tip, co2, color, icon.  `co2` is a Python float with one decimal;
it is represented exactly as a rational. -/
structure CategoryEntry where
  name : String
  type : String
  tip : String
  co2 : ℚ
  color : String
  icon : String
deriving DecidableEq, Repr

/-- The `WASTE_CATEGORIES` class attribute of `WastePredictor`
(predict.py lines 34-84): a dict from int keys 0..5 to category metadata,
written here as an association list in source order. -/
def WASTE_CATEGORIES : List (Int × CategoryEntry) :=
  [ (0, { name := "Glass", type := "Recyclable",
          tip := "Separate by color when possible. Remove caps and lids. Rinse before recycling.",
          co2 := 4/10, color := "#8B5CF6", icon := "🍾" }),
    (1, { name := "Metal", type := "Recyclable",
          tip := "Aluminum cans are infinitely recyclable! Rinse before recycling. Separate steel and aluminum if required.",
          co2 := 6/10, color := "#EF4444", icon := "🥫" }),
    (2, { name := "Organic Waste", type := "Compostable",
          tip := "Perfect for composting! Add to your compost bin or use municipal composting services.",
          co2 := 2/10, color := "#F59E0B", icon := "🍂" }),
    (3, { name := "Paper", type := "Recyclable",
          tip := "Keep paper clean and dry. Remove plastic windows, tape, staples, and clips before recycling. Flatten boxes to save space. Avoid recycling greasy pizza boxes, waxed paper, or paper with food residue. Newspapers, magazines, office paper, and cardboard are all recyclable. Check local guidelines for specific requirements.",
          co2 := 3/10, color := "#10B981", icon := "📄" }),
    (4, { name := "Plastic", type := "Recyclable",
          tip := "Rinse thoroughly and remove labels before recycling. Check local guidelines for plastic types accepted.",
          co2 := 5/10, color := "#3B82F6", icon := "♻️" }),
    (5, { name := "Textiles", type := "Recyclable",
          tip := "Donate wearable clothes to charity. For damaged items, use textile recycling bins. Clean and dry items before donating. Remove zippers and buttons if possible. Natural fibers like cotton and wool are more easily recycled than synthetic blends.",
          co2 := 7/10, color := "#EC4899", icon := "👕" }) ]

/-- `self.WASTE_CATEGORIES[i]`: Python dict indexing, `none` models the
`KeyError` raised for a key outside the dict. -/
def lookupCategory (i : Int) : Option CategoryEntry :=
  WASTE_CATEGORIES.lookup i

/-- Round half to even to an integer, as Python's builtin `round` does. -/
def pyRoundHalfEven (y : ℚ) : ℤ :=
  if y - (⌊y⌋ : ℚ) < 1/2 then ⌊y⌋
  else if 1/2 < y - (⌊y⌋ : ℚ) then ⌊y⌋ + 1
  else if ⌊y⌋ % 2 = 0 then ⌊y⌋ else ⌊y⌋ + 1

/-- Python's `round(x, 1)` on an exactly-represented value: multiply by 10,
round half to even to an integer, divide by 10. -/
def pyRound1 (x : ℚ) : ℚ :=
  (pyRoundHalfEven (x * 10) : ℚ) / 10

/-- The maximum of a nonempty list (head as the seed), as numpy's `max`
computes it; `0` on the empty list (numpy raises there, handled separately). -/
def listMax : List ℚ → ℚ
  | [] => 0
  | x :: xs => xs.foldl max x

/-- `np.argmax` on a vector: the index of the first occurrence of the
maximum (numpy's documented tie-break).  `0` on the empty list (numpy raises
there, handled at the call site). -/
def argmaxFirst : List ℚ → Nat
  | [] => 0
  | x :: xs => if listMax (x :: xs) ≤ x then 0 else argmaxFirst xs + 1

/-- PIL image modes relevant to this code path: `RGB`, `RGBA`, and `L`
(8-bit grayscale, e.g. a grayscale PNG). -/
inductive PILMode where
  | RGB : PILMode
  | RGBA : PILMode
  | L : PILMode
deriving DecidableEq, Repr

/-- Channel count of a PIL mode. -/
def PILMode.channels : PILMode → Nat
  | .RGB => 3
  | .RGBA => 4
  | .L => 1

/-- A decoded PIL image: mode, size, and the per-pixel channel values
(`px y x` lists the 8-bit channel values of the pixel at row `y`, column
`x`).  Well-formedness (channel count per mode, values ≤ 255) is stated as
hypotheses where needed. -/
structure PILImage where
  mode : PILMode
  width : Nat
  height : Nat
  px : Nat → Nat → List Nat

/-- `image.convert('RGB')` applied to an RGBA image: PIL discards the alpha
channel, keeping the first three channel values. -/
def PILImage.convertRGB (img : PILImage) : PILImage :=
  { img with mode := .RGB, px := fun y x => (img.px y x).take 3 }

/-- A numpy array: shape plus row-major flattened data (rational entries). -/
structure NpArray where
  shape : List Nat
  data : List ℚ
deriving DecidableEq, Repr

/-- `np.array(image) / 255.0` on a PIL image: an `L`-mode image yields a
2-D array `(height, width)`; a multi-channel image yields
`(height, width, channels)`.  Entries are channel values scaled to `[0,1]`. -/
def npOfImage (img : PILImage) : NpArray :=
  let flat : List ℚ :=
    (List.range img.height).flatMap fun y =>
      (List.range img.width).flatMap fun x =>
        (img.px y x).map fun (v : Nat) => (v : ℚ) / 255
  match img.mode with
  | .L => { shape := [img.height, img.width], data := flat }
  | m => { shape := [img.height, img.width, m.channels], data := flat }

/-- `np.expand_dims(a, axis=0)`: prepend a batch dimension of size 1. -/
def expandDims0 (a : NpArray) : NpArray :=
  { a with shape := 1 :: a.shape }

/-- A degenerate but contract-satisfying stand-in for PIL's `Image.resize`:
it keeps the mode and the pixel function and only changes the declared size.
Used to instantiate the abstract `resize` parameter on concrete inputs. -/
def demoResize (img : PILImage) (sz : Nat × Nat) : PILImage :=
  { mode := img.mode, width := sz.1, height := sz.2, px := img.px }

/-- Concrete test vector: a 2×2 solid-gray image that PIL decodes in mode
`L` (e.g. a grayscale PNG of a single gray). -/
def grayImg : PILImage :=
  { mode := .L, width := 2, height := 2, px := fun _ _ => [128] }

/-- Concrete test vector: a 2×2 solid-color RGB image. -/
def rgbImg : PILImage :=
  { mode := .RGB, width := 2, height := 2, px := fun _ _ => [12, 34, 56] }

/-- The predictor state of `WastePredictor` (`self.model`, `self.model_loaded`,
`self.img_size`).  `M` is the opaque keras model-handle type. -/
structure WastePredictor (M : Type) where
  model : Option M
  model_loaded : Bool
  img_size : Nat
deriving Repr

/-- What `_load_model` observes about a model file: whether
`os.path.exists` holds, `os.path.getsize`, and the outcome of
`keras.models.load_model` (`none` models the call raising an exception). -/
structure ModelFile (M : Type) where
  path_exists : Bool
  size : Nat
  load : Option M

/-- `WastePredictor._load_model` (predict.py lines 97-127).  The whole body
sits in `try/except Exception`, so the function always returns; each failure
path leaves `model = None`, `model_loaded = False`. -/
def load_model {M : Type} (self : WastePredictor M) (f : ModelFile M) :
    WastePredictor M :=
  if f.path_exists = false then
    { self with model := none, model_loaded := false }
  else if f.size = 0 then
    { self with model := none, model_loaded := false }
  else
    match f.load with
    | some m => { self with model := some m, model_loaded := true }
    | none => { self with model := none, model_loaded := false }

/-- `WastePredictor.__init__` (predict.py lines 86-95): start with
`model = None`, `model_loaded = False`, `img_size = 224`; call `_load_model`
only when a truthy path is given, `os.path.exists` holds and `TF_AVAILABLE`.
`model_path = none` covers Python `None` and the empty string (both falsy). -/
def init {M : Type} (tf_available : Bool) (model_path : Option (ModelFile M)) :
    WastePredictor M :=
  let self : WastePredictor M := { model := none, model_loaded := false, img_size := 224 }
  match model_path with
  | some f =>
      if f.path_exists ∧ tf_available then load_model self f else self
  | none => self

/-- `WastePredictor.preprocess_image` (predict.py lines 129-155).
`file` is the outcome of `PIL.Image.open(image_path)` (an exception
propagates unchanged); `resize` is PIL's external `Image.resize`, passed in
with its contract stated at the theorems.  The body reads `self` and never
writes it, so the state is returned unchanged. -/
def preprocess_image {M : Type} (self : WastePredictor M)
    (resize : PILImage → Nat × Nat → PILImage)
    (file : Except PyError PILImage) :
    WastePredictor M × Except PyError NpArray :=
  match file with
  | .error e => (self, .error e)
  | .ok image =>
      let image := if image.mode = .RGBA then image.convertRGB else image
      let image := resize image (self.img_size, self.img_size)
      (self, .ok (expandDims0 (npOfImage image)))

/-- The result dict built by `WastePredictor.predict` (predict.py 182-191). -/
structure PredictionResult where
  item : String
  category : String
  confidence : ℚ
  tip : String
  co2 : ℚ
  color : String
  icon : String
  category_id : Int
deriving DecidableEq, Repr

/-- Concrete test vector: the result dict `predict` builds in the Fallback
state for the draws `category_id = 0` (Glass) and `confidence = 90.0`. -/
def glassResult : PredictionResult :=
  { item := "Glass", category := "Recyclable", confidence := 90,
    tip := "Separate by color when possible. Remove caps and lids. Rinse before recycling.",
    co2 := 4/10, color := "#8B5CF6", icon := "🍾", category_id := 0 }

/-- Lines 167-176 of `WastePredictor.predict`: the `if`/`else` that computes
`category_id` and the raw (unrounded) `confidence`.  The condition is
`self.model_loaded and self.model is not None`; the real branch preprocesses
the image (exceptions propagate) and applies `np.argmax` (which raises
`ValueError` on an empty vector); the demo branch uses the two pre-drawn
random values. -/
def predict_raw {M : Type} (self : WastePredictor M)
    (infer : M → NpArray → List ℚ)
    (resize : PILImage → Nat × Nat → PILImage)
    (file : Except PyError PILImage)
    (randCat : Nat) (randConf : ℚ) :
    Except PyError (Int × ℚ) :=
  match self.model_loaded, self.model with
  | true, some m =>
      match (preprocess_image self resize file).2 with
      | .error e => .error e
      | .ok processed =>
          let predictions := infer m processed
          if predictions = [] then .error .valueError
          else
            let category_id : Int := Int.ofNat (argmaxFirst predictions)
            let confidence : ℚ := predictions.getD (argmaxFirst predictions) 0 * 100
            .ok (category_id, confidence)
  | _, _ =>
      .ok (Int.ofNat randCat, randConf)

/-- `WastePredictor.predict` (predict.py lines 157-193).
`infer` is the external `self.model.predict(x, verbose=0)[0]` call: the
per-class probability row for the single batched input.  `randCat` and
`randConf` are the values the demo branch draws from
`np.random.randint(0, len(WASTE_CATEGORIES))` and `np.random.uniform(85, 99)`;
their ranges are numpy's documented contracts and appear as hypotheses.
The body reads `self` and never writes it, so the state is returned
unchanged alongside the result or the propagated exception. -/
def predict {M : Type} (self : WastePredictor M)
    (infer : M → NpArray → List ℚ)
    (resize : PILImage → Nat × Nat → PILImage)
    (file : Except PyError PILImage)
    (randCat : Nat) (randConf : ℚ) :
    WastePredictor M × Except PyError PredictionResult :=
  match predict_raw self infer resize file randCat randConf with
  | .error e => (self, .error e)
  | .ok (category_id, confidence) =>
      match lookupCategory category_id with
      | none => (self, .error .keyError)
      | some category_info =>
          (self, .ok { item := category_info.name,
                       category := category_info.type,
                       confidence := pyRound1 confidence,
                       tip := category_info.tip,
                       co2 := category_info.co2,
                       color := category_info.color,
                       icon := category_info.icon,
                       category_id := category_id })

/-- `WastePredictor.predict_batch` (predict.py lines 195-205): the list
comprehension `[self.predict(path) for path in image_paths]`; an exception in
one call aborts the comprehension there.  Each element carries the per-call
external inputs of `predict` (decoded file and the two random draws). -/
def predict_batch {M : Type} (self : WastePredictor M)
    (infer : M → NpArray → List ℚ)
    (resize : PILImage → Nat × Nat → PILImage)
    (inputs : List (Except PyError PILImage × Nat × ℚ)) :
    WastePredictor M × Except PyError (List PredictionResult) :=
  match inputs with
  | [] => (self, .ok [])
  | (file, rc, cf) :: rest =>
      match predict self infer resize file rc cf with
      | (s1, .error e) => (s1, .error e)
      | (s1, .ok r) =>
          match predict_batch s1 infer resize rest with
          | (s2, .error e) => (s2, .error e)
          | (s2, .ok rs) => (s2, .ok (r :: rs))

/-! ### Helper lemmas -/

theorem pyRoundHalfEven_ge {A : ℤ} {y : ℚ} (h : (A : ℚ) ≤ y) :
    A ≤ pyRoundHalfEven y := by
  have hf : A ≤ ⌊y⌋ := Int.le_floor.mpr h
  unfold pyRoundHalfEven
  split_ifs <;> omega

theorem pyRoundHalfEven_le {B : ℤ} {y : ℚ} (h : y ≤ (B : ℚ)) :
    pyRoundHalfEven y ≤ B := by
  have hf : ⌊y⌋ ≤ B := by
    have := Int.floor_le_floor h
    simpa using this
  have hstrict : (1:ℚ)/2 ≤ y - (⌊y⌋ : ℚ) → ⌊y⌋ + 1 ≤ B := by
    intro hr
    have h1 : (⌊y⌋ : ℚ) < y := by linarith
    have h2 : (⌊y⌋ : ℚ) < (B : ℚ) := lt_of_lt_of_le h1 h
    have : ⌊y⌋ < B := by exact_mod_cast h2
    omega
  unfold pyRoundHalfEven
  split_ifs with h1 h2 h3
  · exact hf
  · exact hstrict (le_of_lt h2)
  · exact hf
  · exact hstrict (le_of_not_lt h1)

theorem pyRound1_ge {A : ℤ} {x : ℚ} (h : (A : ℚ) ≤ x * 10) :
    (A : ℚ) / 10 ≤ pyRound1 x := by
  unfold pyRound1
  have := pyRoundHalfEven_ge h
  have : (A : ℚ) ≤ (pyRoundHalfEven (x * 10) : ℚ) := by exact_mod_cast this
  linarith

theorem pyRound1_le {B : ℤ} {x : ℚ} (h : x * 10 ≤ (B : ℚ)) :
    pyRound1 x ≤ (B : ℚ) / 10 := by
  unfold pyRound1
  have := pyRoundHalfEven_le h
  have : (pyRoundHalfEven (x * 10) : ℚ) ≤ (B : ℚ) := by exact_mod_cast this
  linarith

theorem pyRound1_tenth (x : ℚ) : ∃ k : ℤ, pyRound1 x = (k : ℚ) / 10 :=
  ⟨pyRoundHalfEven (x * 10), rfl⟩

theorem le_foldl_max (xs : List ℚ) : ∀ x : ℚ, x ≤ xs.foldl max x := by
  induction xs with
  | nil => intro x; exact le_refl x
  | cons y ys ih =>
      intro x
      exact le_trans (le_max_left x y) (ih (max x y))

theorem mem_le_foldl_max (xs : List ℚ) :
    ∀ x a : ℚ, a ∈ xs → a ≤ xs.foldl max x := by
  induction xs with
  | nil => intro x a ha; cases ha
  | cons y ys ih =>
      intro x a ha
      rcases List.mem_cons.mp ha with rfl | ha
      · exact le_trans (le_max_right x a) (le_foldl_max ys (max x a))
      · exact ih (max x y) a ha

theorem foldl_max_cons_comm (ys : List ℚ) :
    ∀ x y : ℚ, ys.foldl max (max x y) = max x (ys.foldl max y) := by
  induction ys with
  | nil => intro x y; rfl
  | cons z ys ih =>
      intro x y
      show ys.foldl max (max (max x y) z) = _
      rw [max_assoc, ih]
      rfl

theorem le_listMax {l : List ℚ} {a : ℚ} (ha : a ∈ l) : a ≤ listMax l := by
  cases l with
  | nil => cases ha
  | cons x xs =>
      rcases List.mem_cons.mp ha with rfl | ha
      · exact le_foldl_max xs a
      · exact mem_le_foldl_max xs x a ha

theorem listMax_cons {x : ℚ} {xs : List ℚ} (h : xs ≠ []) :
    listMax (x :: xs) = max x (listMax xs) := by
  cases xs with
  | nil => exact absurd rfl h
  | cons y ys =>
      show (y :: ys).foldl max x = _
      show ys.foldl max (max x y) = _
      rw [foldl_max_cons_comm]
      rfl

theorem listMax_singleton (x : ℚ) : listMax [x] = x := rfl

theorem argmaxFirst_lt_length {l : List ℚ} (h : l ≠ []) :
    argmaxFirst l < l.length := by
  induction l with
  | nil => exact absurd rfl h
  | cons x xs ih =>
      unfold argmaxFirst
      split_ifs with hmax
      · simp
      · have hxs : xs ≠ [] := by
          intro hnil
          subst hnil
          exact hmax (le_of_eq (listMax_singleton x))
        have := ih hxs
        simpa using Nat.succ_lt_succ this

theorem argmaxFirst_getD {l : List ℚ} (h : l ≠ []) :
    l.getD (argmaxFirst l) 0 = listMax l := by
  induction l with
  | nil => exact absurd rfl h
  | cons x xs ih =>
      unfold argmaxFirst
      split_ifs with hmax
      · simp only [List.getD_cons_zero]
        exact le_antisymm (le_listMax (List.mem_cons_self x xs)) hmax
      · have hxs : xs ≠ [] := by
          intro hnil
          subst hnil
          exact hmax (le_of_eq (listMax_singleton x))
        have hrec := ih hxs
        have hcons := listMax_cons (x := x) hxs
        have hlt : x < listMax xs := by
          by_contra hle
          push_neg at hle
          exact hmax (by rw [hcons]; exact max_le (le_refl x) hle)
        simp only [List.getD_cons_succ]
        rw [hrec, hcons, max_eq_right (le_of_lt hlt)]

theorem argmaxFirst_first {l : List ℚ} :
    ∀ j < argmaxFirst l, l.getD j 0 < listMax l := by
  induction l with
  | nil => intro j hj; simp [argmaxFirst] at hj
  | cons x xs ih =>
      intro j hj
      unfold argmaxFirst at hj
      split_ifs at hj with hmax
      · omega
      · have hxs : xs ≠ [] := by
          intro hnil
          subst hnil
          exact hmax (le_of_eq (listMax_singleton x))
        have hcons := listMax_cons (x := x) hxs
        push_neg at hmax
        have hmax2 : x < listMax xs := by
          rw [hcons] at hmax
          rcases lt_max_iff.mp hmax with hx | hx
          · exact absurd hx (lt_irrefl x)
          · exact hx
        have hmaxeq : listMax (x :: xs) = listMax xs := by
          rw [hcons]
          exact max_eq_right (le_of_lt hmax2)
        cases j with
        | zero =>
            simpa using hmax
        | succ j' =>
            simp only [List.getD_cons_succ]
            rw [hmaxeq]
            exact ih j' (Nat.lt_of_succ_lt_succ hj)

theorem getD_mem_of_lt {l : List ℚ} {j : Nat} (h : j < l.length) :
    l.getD j 0 ∈ l := by
  induction l generalizing j with
  | nil => simp at h
  | cons x xs ih =>
      cases j with
      | zero => exact List.mem_cons_self x xs
      | succ j' =>
          simp only [List.getD_cons_succ]
          exact List.mem_cons_of_mem x (ih (Nat.lt_of_succ_lt_succ h))

theorem lookupCategory_isSome {i : Int} (h0 : 0 ≤ i) (h6 : i < 6) :
    (lookupCategory i).isSome = true := by
  interval_cases i <;> decide

theorem lookupCategory_none {i : Int} (h : i < 0 ∨ 6 ≤ i) :
    lookupCategory i = none := by
  have e0 : (i == (0 : Int)) = false := by rw [beq_eq_false_iff_ne]; omega
  have e1 : (i == (1 : Int)) = false := by rw [beq_eq_false_iff_ne]; omega
  have e2 : (i == (2 : Int)) = false := by rw [beq_eq_false_iff_ne]; omega
  have e3 : (i == (3 : Int)) = false := by rw [beq_eq_false_iff_ne]; omega
  have e4 : (i == (4 : Int)) = false := by rw [beq_eq_false_iff_ne]; omega
  have e5 : (i == (5 : Int)) = false := by rw [beq_eq_false_iff_ne]; omega
  unfold lookupCategory WASTE_CATEGORIES
  simp [List.lookup, e0, e1, e2, e3, e4, e5]

theorem lookupCategory_some_bounds {i : Int} {e : CategoryEntry}
    (h : lookupCategory i = some e) : 0 ≤ i ∧ i < 6 := by
  by_contra hc
  push_neg at hc
  rcases lt_or_le i 0 with hneg | hpos
  · rw [lookupCategory_none (Or.inl hneg)] at h
    cases h
  · have : 6 ≤ i := hc hpos
    rw [lookupCategory_none (Or.inr this)] at h
    cases h

theorem preprocess_image_fst {M : Type} (self : WastePredictor M)
    (resize : PILImage → Nat × Nat → PILImage) (file : Except PyError PILImage) :
    (preprocess_image self resize file).1 = self := by
  unfold preprocess_image
  cases file <;> rfl

theorem preprocess_image_ok {M : Type} (self : WastePredictor M)
    (resize : PILImage → Nat × Nat → PILImage) (img : PILImage) :
    (preprocess_image self resize (.ok img)).2 =
      .ok (expandDims0 (npOfImage
        (resize (if img.mode = .RGBA then img.convertRGB else img)
          (self.img_size, self.img_size)))) := rfl

theorem preprocess_image_error {M : Type} (self : WastePredictor M)
    (resize : PILImage → Nat × Nat → PILImage) (e : PyError) :
    (preprocess_image self resize (.error e)).2 = .error e := rfl

theorem predict_fst {M : Type} (self : WastePredictor M)
    (infer : M → NpArray → List ℚ) (resize : PILImage → Nat × Nat → PILImage)
    (file : Except PyError PILImage) (rc : Nat) (cf : ℚ) :
    (predict self infer resize file rc cf).1 = self := by
  unfold predict
  split
  · rfl
  · split <;> rfl

theorem predict_pair {M : Type} (self : WastePredictor M)
    (infer : M → NpArray → List ℚ) (resize : PILImage → Nat × Nat → PILImage)
    (file : Except PyError PILImage) (rc : Nat) (cf : ℚ) :
    predict self infer resize file rc cf =
      (self, (predict self infer resize file rc cf).2) :=
  Prod.ext_iff.mpr ⟨predict_fst self infer resize file rc cf, rfl⟩

theorem predict_batch_fst {M : Type}
    (infer : M → NpArray → List ℚ) (resize : PILImage → Nat × Nat → PILImage) :
    ∀ (inputs : List (Except PyError PILImage × Nat × ℚ)) (self : WastePredictor M),
      (predict_batch self infer resize inputs).1 = self := by
  intro inputs
  induction inputs with
  | nil => intro self; rfl
  | cons x rest ih =>
      intro self
      obtain ⟨file, rc, cf⟩ := x
      unfold predict_batch
      rw [predict_pair self infer resize file rc cf]
      cases (predict self infer resize file rc cf).2 with
      | error e => rfl
      | ok r =>
          dsimp only
          have hb : predict_batch self infer resize rest =
              (self, (predict_batch self infer resize rest).2) :=
            Prod.ext_iff.mpr ⟨ih self, rfl⟩
          rw [hb]
          cases (predict_batch self infer resize rest).2 <;> rfl

theorem predict_raw_demo {M : Type} (self : WastePredictor M)
    (h : self.model_loaded = false ∨ self.model = none)
    (infer : M → NpArray → List ℚ) (resize : PILImage → Nat × Nat → PILImage)
    (file : Except PyError PILImage) (rc : Nat) (cf : ℚ) :
    predict_raw self infer resize file rc cf = .ok (Int.ofNat rc, cf) := by
  unfold predict_raw
  cases hl : self.model_loaded with
  | false => cases self.model <;> rfl
  | true =>
      cases hm : self.model with
      | none => rfl
      | some m =>
          rcases h with h | h
          · rw [hl] at h; cases h
          · rw [hm] at h; cases h

theorem predict_raw_loaded {M : Type} {self : WastePredictor M} {m : M}
    (hl : self.model_loaded = true) (hm : self.model = some m)
    (infer : M → NpArray → List ℚ) (resize : PILImage → Nat × Nat → PILImage)
    (file : Except PyError PILImage) {t : NpArray}
    (ht : (preprocess_image self resize file).2 = .ok t) (rc : Nat) (cf : ℚ) :
    predict_raw self infer resize file rc cf =
      (if infer m t = [] then .error .valueError
       else .ok (Int.ofNat (argmaxFirst (infer m t)),
                 (infer m t).getD (argmaxFirst (infer m t)) 0 * 100)) := by
  unfold predict_raw
  rw [hl, hm, ht]

theorem predict_raw_error {M : Type} {self : WastePredictor M} {m : M}
    (hl : self.model_loaded = true) (hm : self.model = some m)
    (infer : M → NpArray → List ℚ) (resize : PILImage → Nat × Nat → PILImage)
    (file : Except PyError PILImage) {e : PyError}
    (he : (preprocess_image self resize file).2 = .error e) (rc : Nat) (cf : ℚ) :
    predict_raw self infer resize file rc cf = .error e := by
  unfold predict_raw
  rw [hl, hm, he]

theorem predict_snd_of_raw_ok {M : Type} (self : WastePredictor M)
    (infer : M → NpArray → List ℚ) (resize : PILImage → Nat × Nat → PILImage)
    (file : Except PyError PILImage) (rc : Nat) (cf : ℚ)
    {cid : Int} {conf : ℚ}
    (h : predict_raw self infer resize file rc cf = .ok (cid, conf)) :
    (predict self infer resize file rc cf).2 =
      (match lookupCategory cid with
       | none => .error .keyError
       | some info =>
           .ok { item := info.name, category := info.type,
                 confidence := pyRound1 conf, tip := info.tip, co2 := info.co2,
                 color := info.color, icon := info.icon, category_id := cid }) := by
  unfold predict
  rw [h]
  dsimp only
  cases lookupCategory cid <;> rfl

theorem predict_snd_of_raw_error {M : Type} (self : WastePredictor M)
    (infer : M → NpArray → List ℚ) (resize : PILImage → Nat × Nat → PILImage)
    (file : Except PyError PILImage) (rc : Nat) (cf : ℚ) {e : PyError}
    (h : predict_raw self infer resize file rc cf = .error e) :
    (predict self infer resize file rc cf).2 = .error e := by
  unfold predict
  rw [h]

theorem init_false {M : Type} (model_path : Option (ModelFile M)) :
    init false model_path = { model := none, model_loaded := false, img_size := 224 } := by
  unfold init
  cases model_path with
  | none => rfl
  | some f => simp

theorem predict_batch_nil {M : Type} (self : WastePredictor M)
    (infer : M → NpArray → List ℚ) (resize : PILImage → Nat × Nat → PILImage) :
    (predict_batch self infer resize []).2 = .ok [] := rfl

theorem predict_batch_cons {M : Type} (self : WastePredictor M)
    (infer : M → NpArray → List ℚ) (resize : PILImage → Nat × Nat → PILImage)
    (file : Except PyError PILImage) (rc : Nat) (cf : ℚ)
    (rest : List (Except PyError PILImage × Nat × ℚ)) :
    (predict_batch self infer resize ((file, rc, cf) :: rest)).2 =
      (match (predict self infer resize file rc cf).2 with
       | .error e => .error e
       | .ok r =>
           match (predict_batch self infer resize rest).2 with
           | .error e => .error e
           | .ok rs => .ok (r :: rs)) := by
  conv_lhs => rw [predict_batch.eq_def]
  dsimp only
  rw [predict_pair self infer resize file rc cf]
  cases (predict self infer resize file rc cf).2 with
  | error e => rfl
  | ok r =>
      dsimp only
      have hpair : predict_batch self infer resize rest =
          (self, (predict_batch self infer resize rest).2) :=
        Prod.ext_iff.mpr ⟨predict_batch_fst infer resize rest self, rfl⟩
      rw [hpair]
      cases (predict_batch self infer resize rest).2 <;> rfl

/-! ### Claim theorems -/

/-- C3: the taxonomy has `count() = N = 6` entries; for every integer `i` in
`[0,N)` the lookup succeeds and returns the entry listed for key `i`; for
every `i` outside `[0,N)` the lookup fails (Python `KeyError`, the spec's
`OutOfRangeError`). -/
theorem C3_taxonomy_get (i : Int) :
    WASTE_CATEGORIES.length = 6 ∧
    ((0 ≤ i ∧ i < 6) → ∃ e, lookupCategory i = some e ∧ (i, e) ∈ WASTE_CATEGORIES) ∧
    ((i < 0 ∨ 6 ≤ i) → lookupCategory i = none) := by
  refine ⟨rfl, ?_, fun h => lookupCategory_none h⟩
  rintro ⟨h0, h6⟩
  interval_cases i <;>
    exact ⟨_, rfl, by
      unfold WASTE_CATEGORIES
      repeat first
        | exact List.mem_cons_self _ _
        | apply List.mem_cons_of_mem⟩

/-- Witness for C3 at `i = 2` (in range) and `i = 6` (out of range). -/
theorem C3_taxonomy_get_witness :
    (∃ e, lookupCategory 2 = some e ∧ ((2 : Int), e) ∈ WASTE_CATEGORIES) ∧
    lookupCategory 6 = none :=
  ⟨(C3_taxonomy_get 2).2.1 ⟨by norm_num, by norm_num⟩,
   (C3_taxonomy_get 6).2.2 (Or.inr (by norm_num))⟩

/-- C4: initialization never raises: with a missing path, an empty file, or a
file whose deserialization raises, `__init__` completes in the Fallback state
(`model_loaded = false`, no model handle); load errors are swallowed. -/
theorem C4_init_never_raises {M : Type} (tf_available : Bool)
    (model_path : Option (ModelFile M))
    (h : model_path = none ∨
         ∃ f, model_path = some f ∧
              (f.path_exists = false ∨ f.size = 0 ∨ f.load = none)) :
    (init tf_available model_path).model_loaded = false ∧
    (init tf_available model_path).model = none := by
  rcases h with rfl | ⟨f, rfl, hf⟩
  · exact ⟨rfl, rfl⟩
  · unfold init
    dsimp only
    split_ifs with hc
    · unfold load_model
      split_ifs with h1 h2
      · exact ⟨rfl, rfl⟩
      · exact ⟨rfl, rfl⟩
      · have hload : f.load = none := by
          rcases hf with hf | hf | hf
          · exact absurd hf h1
          · exact absurd hf h2
          · exact hf
        rw [hload]
        exact ⟨rfl, rfl⟩
    · exact ⟨rfl, rfl⟩

/-- Witness for C4: an existing but empty (0-byte) model file, TensorFlow
available. -/
theorem C4_init_never_raises_witness :
    (init true (some ⟨true, 0, some ()⟩) : WastePredictor Unit).model_loaded = false ∧
    (init true (some ⟨true, 0, some ()⟩) : WastePredictor Unit).model = none :=
  C4_init_never_raises true (some ⟨true, 0, some ()⟩)
    (Or.inr ⟨⟨true, 0, some ()⟩, rfl, Or.inr (Or.inl rfl)⟩)

/-- C6: in the Loaded state, a preprocessing failure propagates unchanged
through `predict`: the same exception comes out and no result is produced. -/
theorem C6_preprocess_error_propagates {M : Type} {self : WastePredictor M} {m : M}
    (hl : self.model_loaded = true) (hm : self.model = some m)
    (infer : M → NpArray → List ℚ) (resize : PILImage → Nat × Nat → PILImage)
    (file : Except PyError PILImage) (rc : Nat) (cf : ℚ) {e : PyError}
    (he : (preprocess_image self resize file).2 = .error e) :
    (predict self infer resize file rc cf).2 = .error e :=
  predict_snd_of_raw_error self infer resize file rc cf
    (predict_raw_error hl hm infer resize file he rc cf)

/-- Witness for C6: a loaded predictor fed bytes that do not decode. -/
theorem C6_preprocess_error_propagates_witness :
    (predict (⟨some (), true, 224⟩ : WastePredictor Unit) (fun _ _ => [])
      (fun img _ => img) (.error .unidentifiedImage) 0 90).2 =
      .error .unidentifiedImage :=
  C6_preprocess_error_propagates rfl rfl (fun _ _ => []) (fun img _ => img)
    (.error .unidentifiedImage) 0 90 rfl

/-- C7: in the Fallback state, `categoryId` is exactly the integer drawn by
`np.random.randint(0, N)` — so every taxonomy index in `[0,N)` is a possible
outcome — and the rounded confidence always lies in `[85, 99]` given numpy's
contract `85 ≤ uniform(85,99) < 99`. -/
theorem C7_fallback_draws {M : Type} (self : WastePredictor M)
    (h : self.model_loaded = false ∨ self.model = none)
    (infer : M → NpArray → List ℚ) (resize : PILImage → Nat × Nat → PILImage)
    (file : Except PyError PILImage) (rc : Nat) (cf : ℚ)
    (hrc : rc < WASTE_CATEGORIES.length) (hcf1 : 85 ≤ cf) (hcf2 : cf < 99) :
    ∃ r, (predict self infer resize file rc cf).2 = .ok r ∧
      r.category_id = Int.ofNat rc ∧
      r.confidence = pyRound1 cf ∧
      85 ≤ r.confidence ∧ r.confidence ≤ 99 := by
  have hraw := predict_raw_demo self h infer resize file rc cf
  have hsnd := predict_snd_of_raw_ok self infer resize file rc cf hraw
  have hrc6 : (Int.ofNat rc : Int) < 6 := by
    have h6 : rc < 6 := by simpa using hrc
    show (rc : ℤ) < 6
    exact_mod_cast h6
  have hsome := lookupCategory_isSome (i := Int.ofNat rc) (Int.ofNat_nonneg rc) hrc6
  obtain ⟨e, he⟩ := Option.isSome_iff_exists.mp hsome
  rw [he] at hsnd
  refine ⟨_, hsnd, rfl, rfl, ?_, ?_⟩
  · have h85 : ((850 : ℤ) : ℚ) ≤ cf * 10 := by push_cast; linarith
    have := pyRound1_ge h85
    norm_num at this
    exact this
  · have h99 : cf * 10 ≤ ((990 : ℤ) : ℚ) := by push_cast; linarith
    have := pyRound1_le h99
    norm_num at this
    exact this

/-- Witness for C7: a fallback predictor, draw `rc = 5`, `cf = 98.96`. -/
theorem C7_fallback_draws_witness :
    ∃ r, (predict (⟨none, false, 224⟩ : WastePredictor Unit) (fun _ _ => [])
        (fun img _ => img) (.error .unidentifiedImage) 5 (2474/25)).2 = .ok r ∧
      r.category_id = Int.ofNat 5 ∧
      r.confidence = pyRound1 (2474/25) ∧
      85 ≤ r.confidence ∧ r.confidence ≤ 99 :=
  C7_fallback_draws (⟨none, false, 224⟩ : WastePredictor Unit)
    (Or.inl rfl) (fun _ _ => []) (fun img _ => img)
    (.error .unidentifiedImage) 5 (2474/25) (by decide)
    (by norm_num) (by norm_num)

/-- C9: the predictor state is read-only: `predict` and `predict_batch`
leave `model`, `model_loaded` and `img_size` unchanged, on success and on
failure alike. -/
theorem C9_state_readonly {M : Type} (self : WastePredictor M)
    (infer : M → NpArray → List ℚ) (resize : PILImage → Nat × Nat → PILImage)
    (file : Except PyError PILImage) (rc : Nat) (cf : ℚ)
    (inputs : List (Except PyError PILImage × Nat × ℚ)) :
    ((predict self infer resize file rc cf).1.model = self.model ∧
     (predict self infer resize file rc cf).1.model_loaded = self.model_loaded ∧
     (predict self infer resize file rc cf).1.img_size = self.img_size) ∧
    ((predict_batch self infer resize inputs).1.model = self.model ∧
     (predict_batch self infer resize inputs).1.model_loaded = self.model_loaded ∧
     (predict_batch self infer resize inputs).1.img_size = self.img_size) := by
  rw [predict_fst, predict_batch_fst]
  exact ⟨⟨rfl, rfl, rfl⟩, ⟨rfl, rfl, rfl⟩⟩

/-- C10: when the TensorFlow import fails (`TF_AVAILABLE = false`),
initialization never attempts a load — even for an existing, non-empty,
loadable model file — and ends in Fallback; every prediction is then the
synthetic demo result built from the random draws. -/
theorem C10_tf_unavailable_fallback {M : Type} (model_path : Option (ModelFile M))
    (infer : M → NpArray → List ℚ) (resize : PILImage → Nat × Nat → PILImage)
    (file : Except PyError PILImage) (rc : Nat) (cf : ℚ)
    (hrc : rc < WASTE_CATEGORIES.length) :
    (init false model_path).model_loaded = false ∧
    (init false model_path).model = none ∧
    ∃ r, (predict (init false model_path) infer resize file rc cf).2 = .ok r ∧
      r.category_id = Int.ofNat rc ∧ r.confidence = pyRound1 cf := by
  rw [init_false]
  refine ⟨rfl, rfl, ?_⟩
  have hraw := predict_raw_demo (⟨none, false, 224⟩ : WastePredictor M)
    (Or.inl rfl) infer resize file rc cf
  have hsnd := predict_snd_of_raw_ok _ infer resize file rc cf hraw
  have hrc6 : (Int.ofNat rc : Int) < 6 := by
    have h6 : rc < 6 := by simpa using hrc
    show (rc : ℤ) < 6
    exact_mod_cast h6
  have hsome := lookupCategory_isSome (i := Int.ofNat rc) (Int.ofNat_nonneg rc) hrc6
  obtain ⟨e, he⟩ := Option.isSome_iff_exists.mp hsome
  rw [he] at hsnd
  exact ⟨_, hsnd, rfl, rfl⟩

/-- Witness for C10: an existing, non-empty, loadable model file; TensorFlow
unavailable. -/
theorem C10_tf_unavailable_fallback_witness :
    (init false (some ⟨true, 1024, some ()⟩) : WastePredictor Unit).model_loaded = false ∧
    (init false (some ⟨true, 1024, some ()⟩) : WastePredictor Unit).model = none ∧
    ∃ r, (predict (init false (some ⟨true, 1024, some ()⟩) : WastePredictor Unit)
        (fun _ _ => []) (fun img _ => img) (.error .unidentifiedImage) 3 90).2 = .ok r ∧
      r.category_id = Int.ofNat 3 ∧ r.confidence = pyRound1 90 :=
  C10_tf_unavailable_fallback (some ⟨true, 1024, some ()⟩)
    (fun _ _ => []) (fun img _ => img) (.error .unidentifiedImage) 3 90 (by decide)

/-- C1: every successful prediction — Loaded or Fallback — carries a
`category_id` that is a valid taxonomy key (an integer in `[0,6)`) and a
`confidence` in `[0,100]` that is an exact multiple of one tenth.  In the
Loaded state the model output is assumed (as the claim does) to be a vector
of `N` non-negative probabilities summing to 1; in the Fallback state the
numpy draws obey `uniform(85,99)`'s contract. -/
theorem C1_prediction_invariants {M : Type} (self : WastePredictor M)
    (infer : M → NpArray → List ℚ) (resize : PILImage → Nat × Nat → PILImage)
    (file : Except PyError PILImage) (rc : Nat) (cf : ℚ)
    (hcf1 : 85 ≤ cf) (hcf2 : cf < 99)
    (hinfer : ∀ (m : M) (t : NpArray), self.model = some m →
        (infer m t).length = WASTE_CATEGORIES.length ∧
        (∀ p ∈ infer m t, 0 ≤ p) ∧ (infer m t).sum = 1)
    (r : PredictionResult)
    (hr : (predict self infer resize file rc cf).2 = .ok r) :
    0 ≤ r.category_id ∧ r.category_id < 6 ∧
    0 ≤ r.confidence ∧ r.confidence ≤ 100 ∧
    ∃ k : ℤ, r.confidence = (k : ℚ) / 10 := by
  have main : ∀ (cid : Int) (conf : ℚ),
      predict_raw self infer resize file rc cf = .ok (cid, conf) →
      0 ≤ conf ∧ conf ≤ 100 →
      0 ≤ r.category_id ∧ r.category_id < 6 ∧
      0 ≤ r.confidence ∧ r.confidence ≤ 100 ∧
      ∃ k : ℤ, r.confidence = (k : ℚ) / 10 := by
    intro cid conf hraw hconf
    have hsnd := predict_snd_of_raw_ok self infer resize file rc cf hraw
    rw [hr] at hsnd
    cases hlk : lookupCategory cid with
    | none => rw [hlk] at hsnd; cases hsnd
    | some info =>
        rw [hlk] at hsnd
        have hrid : r.category_id = cid := by
          injection hsnd with h
          rw [h]
        have hrconf : r.confidence = pyRound1 conf := by
          injection hsnd with h
          rw [h]
        obtain ⟨hb0, hb6⟩ := lookupCategory_some_bounds hlk
        refine ⟨by rw [hrid]; exact hb0, by rw [hrid]; exact hb6, ?_, ?_, ?_⟩
        · rw [hrconf]
          have h0 : ((0 : ℤ) : ℚ) ≤ conf * 10 := by push_cast; linarith [hconf.1]
          have := pyRound1_ge h0
          norm_num at this
          exact this
        · rw [hrconf]
          have h1000 : conf * 10 ≤ ((1000 : ℤ) : ℚ) := by push_cast; linarith [hconf.2]
          have := pyRound1_le h1000
          norm_num at this
          exact this
        · rw [hrconf]
          exact pyRound1_tenth conf
  cases hl : self.model_loaded with
  | false =>
      have hraw := predict_raw_demo self (Or.inl hl) infer resize file rc cf
      exact main _ _ hraw ⟨by linarith, by linarith⟩
  | true =>
      cases hm : self.model with
      | none =>
          have hraw := predict_raw_demo self (Or.inr hm) infer resize file rc cf
          exact main _ _ hraw ⟨by linarith, by linarith⟩
      | some m =>
          cases hpre : (preprocess_image self resize file).2 with
          | error e =>
              have hraw := predict_raw_error hl hm infer resize file hpre rc cf
              have := predict_snd_of_raw_error self infer resize file rc cf hraw
              rw [hr] at this
              cases this
          | ok t =>
              obtain ⟨hlen, hnn, hsum⟩ := hinfer m t hm
              have hne : infer m t ≠ [] := by
                intro hnil
                rw [hnil] at hlen
                simp [WASTE_CATEGORIES] at hlen
              have hraw := predict_raw_loaded hl hm infer resize file hpre rc cf
              rw [if_neg hne] at hraw
              have hcid : argmaxFirst (infer m t) < (infer m t).length :=
                argmaxFirst_lt_length hne
              have hv : (infer m t).getD (argmaxFirst (infer m t)) 0 ∈ infer m t :=
                getD_mem_of_lt hcid
              have hv0 : 0 ≤ (infer m t).getD (argmaxFirst (infer m t)) 0 := hnn _ hv
              have hv1 : (infer m t).getD (argmaxFirst (infer m t)) 0 ≤ 1 := by
                have := List.single_le_sum hnn _ hv
                rw [hsum] at this
                exact this
              exact main _ _ hraw ⟨by linarith, by linarith⟩

/-- Witness for C1: a fallback predictor with draws `rc = 0`, `cf = 90`. -/
theorem C1_prediction_invariants_witness :
    0 ≤ (glassResult).category_id ∧ (glassResult).category_id < 6 ∧
    0 ≤ (glassResult).confidence ∧ (glassResult).confidence ≤ 100 ∧
    ∃ k : ℤ, (glassResult).confidence = (k : ℚ) / 10 :=
  C1_prediction_invariants (⟨none, false, 224⟩ : WastePredictor Unit)
    (fun _ _ => []) (fun img _ => img) (.error .unidentifiedImage) 0 90
    (by norm_num) (by norm_num)
    (fun m t h => absurd h (by simp))
    glassResult (by with_unfolding_all rfl)

/-- C2: in the Loaded state, for any probability vector of length `N` the
model returns, `predict` sets `category_id` to the first index attaining the
maximum (numpy's `argmax` tie-break: lowest index wins) and `confidence` to
`probabilities[category_id] * 100`, rounded to one decimal place when the
result is assembled. -/
theorem C2_loaded_argmax_confidence {M : Type} {self : WastePredictor M} {m : M}
    (hl : self.model_loaded = true) (hm : self.model = some m)
    (infer : M → NpArray → List ℚ) (resize : PILImage → Nat × Nat → PILImage)
    (file : Except PyError PILImage) (rc : Nat) (cf : ℚ) {t : NpArray}
    (ht : (preprocess_image self resize file).2 = .ok t)
    (hlen : (infer m t).length = WASTE_CATEGORIES.length) :
    ∃ r, (predict self infer resize file rc cf).2 = .ok r ∧
      r.category_id = Int.ofNat (argmaxFirst (infer m t)) ∧
      r.confidence =
        pyRound1 ((infer m t).getD (argmaxFirst (infer m t)) 0 * 100) ∧
      (∀ j < (infer m t).length,
        (infer m t).getD j 0 ≤ (infer m t).getD (argmaxFirst (infer m t)) 0) ∧
      (∀ j < argmaxFirst (infer m t),
        (infer m t).getD j 0 < (infer m t).getD (argmaxFirst (infer m t)) 0) := by
  have h6 : (infer m t).length = 6 := by rw [hlen]; rfl
  have hne : infer m t ≠ [] := by
    intro hnil
    rw [hnil] at h6
    cases h6
  have hraw := predict_raw_loaded hl hm infer resize file ht rc cf
  rw [if_neg hne] at hraw
  have hsnd := predict_snd_of_raw_ok self infer resize file rc cf hraw
  have hcidlen : argmaxFirst (infer m t) < (infer m t).length :=
    argmaxFirst_lt_length hne
  have hcid6 : (Int.ofNat (argmaxFirst (infer m t)) : Int) < 6 := by
    have : argmaxFirst (infer m t) < 6 := by omega
    show ((argmaxFirst (infer m t) : ℤ)) < 6
    exact_mod_cast this
  have hsome := lookupCategory_isSome (i := Int.ofNat (argmaxFirst (infer m t)))
    (Int.ofNat_nonneg _) hcid6
  obtain ⟨info, hinfo⟩ := Option.isSome_iff_exists.mp hsome
  rw [hinfo] at hsnd
  have hmax := argmaxFirst_getD hne
  refine ⟨_, hsnd, rfl, rfl, ?_, ?_⟩
  · intro j hj
    rw [hmax]
    exact le_listMax (getD_mem_of_lt hj)
  · intro j hj
    rw [hmax]
    exact argmaxFirst_first j hj

/-- Witness for C2: a loaded predictor over a 0×0 RGB image (so that the
preprocessed tensor is tiny), whose model always answers the vector
`[0, 3, 1, 3, 0, 0]`: the argmax is index 1 (first of the two maxima). -/
theorem C2_loaded_argmax_confidence_witness :
    ∃ r, (predict (⟨some (), true, 0⟩ : WastePredictor Unit)
        (fun _ _ => [0, 3, 1, 3, 0, 0]) (fun _ s => ⟨.RGB, s.1, s.2, fun _ _ => [0, 0, 0]⟩)
        (.ok ⟨.RGB, 1, 1, fun _ _ => [0, 0, 0]⟩) 0 90).2 = .ok r ∧
      r.category_id = Int.ofNat (argmaxFirst [0, 3, 1, 3, 0, 0]) ∧
      r.confidence = pyRound1 (([0, 3, 1, 3, 0, 0] : List ℚ).getD
        (argmaxFirst [0, 3, 1, 3, 0, 0]) 0 * 100) ∧
      (∀ j < ([0, 3, 1, 3, 0, 0] : List ℚ).length,
        ([0, 3, 1, 3, 0, 0] : List ℚ).getD j 0 ≤
          ([0, 3, 1, 3, 0, 0] : List ℚ).getD (argmaxFirst [0, 3, 1, 3, 0, 0]) 0) ∧
      (∀ j < argmaxFirst [0, 3, 1, 3, 0, 0],
        ([0, 3, 1, 3, 0, 0] : List ℚ).getD j 0 <
          ([0, 3, 1, 3, 0, 0] : List ℚ).getD (argmaxFirst [0, 3, 1, 3, 0, 0]) 0) :=
  C2_loaded_argmax_confidence rfl rfl
    (fun _ _ => [0, 3, 1, 3, 0, 0]) (fun _ s => ⟨.RGB, s.1, s.2, fun _ _ => [0, 0, 0]⟩)
    (.ok ⟨.RGB, 1, 1, fun _ _ => [0, 0, 0]⟩) 0 90
    (t := ⟨[1, 0, 0, 3], []⟩) (by with_unfolding_all rfl) rfl

/-- C8: `predict_batch` is the element-wise application of `predict` in
input order: on success, result `j` is exactly `predict` of path `j`; and the
batch aborts at the first failing element with that element's error — no
partial list is returned. -/
theorem C8_batch_elementwise {M : Type} (self : WastePredictor M)
    (infer : M → NpArray → List ℚ) (resize : PILImage → Nat × Nat → PILImage)
    (inputs : List (Except PyError PILImage × Nat × ℚ)) :
    (∀ rs, (predict_batch self infer resize inputs).2 = .ok rs →
       rs.length = inputs.length ∧
       ∀ j inp r, inputs.get? j = some inp → rs.get? j = some r →
         (predict self infer resize inp.1 inp.2.1 inp.2.2).2 = .ok r) ∧
    (∀ k inp e, inputs.get? k = some inp →
       (predict self infer resize inp.1 inp.2.1 inp.2.2).2 = .error e →
       (∀ j inp', j < k → inputs.get? j = some inp' →
          ∃ r, (predict self infer resize inp'.1 inp'.2.1 inp'.2.2).2 = .ok r) →
       (predict_batch self infer resize inputs).2 = .error e) := by
  constructor
  · induction inputs with
    | nil =>
        intro rs hrs
        rw [predict_batch_nil] at hrs
        injection hrs with hrs
        subst hrs
        exact ⟨rfl, fun j inp r hj _ => by cases hj⟩
    | cons x rest ih =>
        obtain ⟨file, rc, cf⟩ := x
        intro rs hrs
        rw [predict_batch_cons] at hrs
        cases hp : (predict self infer resize file rc cf).2 with
        | error e => rw [hp] at hrs; cases hrs
        | ok r =>
            rw [hp] at hrs
            cases hb : (predict_batch self infer resize rest).2 with
            | error e => rw [hb] at hrs; cases hrs
            | ok rs' =>
                rw [hb] at hrs
                injection hrs with hrs
                subst hrs
                obtain ⟨ihlen, ihget⟩ := ih rs' hb
                refine ⟨by simp [ihlen], ?_⟩
                intro j inp r' hj hr'
                cases j with
                | zero =>
                    injection hj with hj
                    injection hr' with hr'
                    subst hj; subst hr'
                    exact hp
                | succ j' =>
                    exact ihget j' inp r' hj hr'
  · induction inputs with
    | nil =>
        intro k inp e hk
        cases hk
    | cons x rest ih =>
        obtain ⟨file, rc, cf⟩ := x
        intro k inp e hk hfail hprev
        cases k with
        | zero =>
            injection hk with hk
            subst hk
            rw [predict_batch_cons, hfail]
        | succ k' =>
            obtain ⟨r, hr⟩ := hprev 0 (file, rc, cf) (Nat.succ_pos k') rfl
            rw [predict_batch_cons, hr]
            dsimp only
            have hrec := ih k' inp e hk hfail
              (fun j inp' hj hj' =>
                hprev (j + 1) inp' (Nat.succ_lt_succ hj) hj')
            rw [hrec]

/-- Witness for C8: a one-element batch that succeeds element-wise
(fallback predictor) and a one-element batch that aborts with the decode
error of its first element (loaded predictor, undecodable bytes). -/
theorem C8_batch_elementwise_witness :
    (predict (⟨none, false, 224⟩ : WastePredictor Unit) (fun _ _ => [])
        (fun img _ => img) (.error .unidentifiedImage) 0 90).2 = .ok glassResult ∧
    (predict_batch (⟨some (), true, 224⟩ : WastePredictor Unit) (fun _ _ => [])
        (fun img _ => img) [(.error .unidentifiedImage, 0, 90)]).2 =
      .error .unidentifiedImage :=
  ⟨((C8_batch_elementwise (⟨none, false, 224⟩ : WastePredictor Unit) (fun _ _ => [])
        (fun img _ => img) [(.error .unidentifiedImage, 0, 90)]).1 [glassResult]
        (by with_unfolding_all rfl)).2 0 (.error .unidentifiedImage, 0, 90) glassResult
        rfl rfl,
   (C8_batch_elementwise (⟨some (), true, 224⟩ : WastePredictor Unit) (fun _ _ => [])
        (fun img _ => img) [(.error .unidentifiedImage, 0, 90)]).2 0
        (.error .unidentifiedImage, 0, 90) .unidentifiedImage rfl
        (by with_unfolding_all rfl)
        (fun j inp' hj _ => absurd hj (Nat.not_lt_zero j))⟩

theorem npOfImage_shape_notL {img : PILImage} (h : img.mode ≠ .L) :
    (npOfImage img).shape = [img.height, img.width, img.mode.channels] := by
  unfold npOfImage
  cases hm : img.mode with
  | L => exact absurd hm h
  | RGB => rfl
  | RGBA => rfl

theorem npOfImage_data (img : PILImage) :
    (npOfImage img).data =
      (List.range img.height).flatMap fun y =>
        (List.range img.width).flatMap fun x =>
          (img.px y x).map fun (v : Nat) => (v : ℚ) / 255 := by
  unfold npOfImage
  cases img.mode <;> rfl

theorem npOfImage_data_bounds {img : PILImage} {q : ℚ}
    (hb : ∀ y x v, v ∈ img.px y x → v ≤ 255)
    (hq : q ∈ (npOfImage img).data) : 0 ≤ q ∧ q ≤ 1 := by
  rw [npOfImage_data] at hq
  rw [List.mem_flatMap] at hq
  obtain ⟨y, hy, hq⟩ := hq
  rw [List.mem_flatMap] at hq
  obtain ⟨x, hx, hq⟩ := hq
  rw [List.mem_map] at hq
  obtain ⟨v, hv, rfl⟩ := hq
  constructor
  · positivity
  · rw [div_le_one (by norm_num)]
    exact_mod_cast hb y x v hv

/-- C5 as amended: for every image that decodes to an `RGB` or `RGBA` pixel
grid (in particular every solid-color square color image), under PIL's
documented `resize` contract (size as requested, mode preserved, 8-bit
channel values), `preprocess_image` returns a tensor of shape
`[1, 224, 224, 3]` whose values all lie in `[0,1]`; an alpha channel is
dropped before resizing. -/
theorem C5_preprocess_rgb_shape {M : Type} (self : WastePredictor M)
    (resize : PILImage → Nat × Nat → PILImage) (img : PILImage)
    (hsize : self.img_size = 224)
    (hmode : img.mode = .RGB ∨ img.mode = .RGBA)
    (himg : ∀ y x v, v ∈ img.px y x → v ≤ 255)
    (hres_mode : ∀ im sz, (resize im sz).mode = im.mode)
    (hres_w : ∀ im sz, (resize im sz).width = sz.1)
    (hres_h : ∀ im sz, (resize im sz).height = sz.2)
    (hres_px : ∀ im sz y x v, (∀ y' x' v', v' ∈ im.px y' x' → v' ≤ 255) →
        v ∈ (resize im sz).px y x → v ≤ 255) :
    ∃ t, (preprocess_image self resize (.ok img)).2 = .ok t ∧
      t.shape = [1, 224, 224, 3] ∧
      ∀ q ∈ t.data, 0 ≤ q ∧ q ≤ 1 := by
  rw [preprocess_image_ok, hsize]
  set img2 : PILImage := if img.mode = .RGBA then img.convertRGB else img with himg2
  have himg2_mode : img2.mode = .RGB := by
    rcases hmode with h | h
    · rw [himg2, if_neg (by rw [h]; intro hc; cases hc)]
      exact h
    · rw [himg2, if_pos h]
      rfl
  have himg2_px : ∀ y x v, v ∈ img2.px y x → v ≤ 255 := by
    intro y x v hv
    rcases hmode with h | h
    · rw [himg2, if_neg (by rw [h]; intro hc; cases hc)] at hv
      exact himg y x v hv
    · rw [himg2, if_pos h] at hv
      exact himg y x v (List.take_subset 3 _ hv)
  set img3 : PILImage := resize img2 (224, 224) with himg3
  have himg3_mode : img3.mode ≠ .L := by
    rw [himg3, hres_mode, himg2_mode]
    intro hc
    cases hc
  refine ⟨_, rfl, ?_, ?_⟩
  · show (1 :: (npOfImage img3).shape) = [1, 224, 224, 3]
    rw [npOfImage_shape_notL himg3_mode, himg3, hres_h, hres_w, hres_mode,
      himg2_mode]
    rfl
  · intro q hq
    refine npOfImage_data_bounds ?_ hq
    intro y x v hv
    exact hres_px img2 (224, 224) y x v himg2_px hv

/-- Witness for the amended C5: the solid-color 2×2 RGB image `rgbImg` with
the contract-satisfying `demoResize`. -/
theorem C5_preprocess_rgb_shape_witness :
    ∃ t, (preprocess_image (⟨none, false, 224⟩ : WastePredictor Unit) demoResize
        (.ok rgbImg)).2 = .ok t ∧
      t.shape = [1, 224, 224, 3] ∧
      ∀ q ∈ t.data, 0 ≤ q ∧ q ≤ 1 :=
  C5_preprocess_rgb_shape (⟨none, false, 224⟩ : WastePredictor Unit) demoResize rgbImg
    rfl (Or.inl rfl)
    (fun y x v hv => by
      simp only [rgbImg, List.mem_cons, List.not_mem_nil, or_false] at hv
      rcases hv with rfl | rfl | rfl <;> omega)
    (fun im sz => rfl) (fun im sz => rfl) (fun im sz => rfl)
    (fun im sz y x v hb hv => hb y x v hv)

/-- C5 counterexample: a solid-gray 2×2 square image that decodes in PIL
mode `L` (grayscale) is never converted (only `RGBA` is), so the
preprocessed tensor has shape `[1, 224, 224]` — the channel dimension of
the claimed `[1, inputSize, inputSize, 3]` is missing. -/
theorem C5_counterexample_grayscale :
    Except.map NpArray.shape
        ((preprocess_image (init false none : WastePredictor Unit) demoResize
          (.ok grayImg)).2) = .ok [1, 224, 224] ∧
      ([1, 224, 224] : List Nat) ≠ [1, 224, 224, 3] := by
  constructor
  · with_unfolding_all rfl
  · decide

end TrashTalk
